import Mathlib

/-!
Shallow embedding of `data/every_dream.py` (class `EveryDreamBatch`).

External collaborators (`DataLoaderMultiAspect`, `ImageTrainItem`,
`CLIPTokenizer`, the caption object) are modelled abstractly as records of
functions, exactly at the interface the class uses.  Python floats are
modelled as rationals; the per-sample uniform random draw of
`random.random()` (a value in `[0, 1)`) is passed explicitly as a rational
argument.  Images are modelled as lists of raw 8-bit pixel values (`Nat`);
`transforms.ToTensor()` scales them to `[0, 1]` and
`transforms.Normalize([mean],[std])` applies `(x - mean) / std` per value.
-/

/-- Caption object at the interface `__getitem__` uses: a stable string view
and a seed-parameterised tag-shuffled view. -/
structure CaptionObject where
  get_caption : String
  get_shuffled_caption : Int → String

/-- Result of `ImageTrainItem.hydrate`: the fields that
`__get_image_for_trainer` reads off the hydrated item. -/
structure HydratedItem where
  image : List Nat
  caption : CaptionObject
  runt_size : Int

/-- Bucketed item handle as used by `EveryDreamBatch`: the attributes read by
`__write_batch_schedule` (`target_wh` kept as its printed form, `runt_size`,
`pathname`) and the `hydrate` method with its `(crop, save, crop_jitter)`
parameters. -/
structure ImageTrainItem where
  target_wh : String
  runt_size : Int
  pathname : String
  hydrate : Bool → Bool → Int → HydratedItem

/-- Bucketing collaborator at the interface `EveryDreamBatch` uses: a
`batch_size` attribute and `get_shuffled_image_buckets(dropout_fraction)`. -/
structure DataLoaderMultiAspect where
  batch_size : Nat
  get_shuffled_image_buckets : ℚ → List ImageTrainItem

/-- Tokenizer collaborator: `model_max_length` and the call
`tokenizer(text, truncation=True, padding="max_length", max_length=...)`
returning `input_ids`, abstracted as a function from the text to the padded
id sequence. -/
structure CLIPTokenizer where
  model_max_length : Nat
  tokenize : String → List Int

/-- State of an `EveryDreamBatch` instance: every attribute `__init__`
assigns on `self`, in source order. -/
structure EveryDreamBatch where
  data_loader : DataLoaderMultiAspect
  batch_size : Nat
  debug_level : Int
  conditional_dropout : ℚ
  crop_jitter : Int
  unloaded_to_idx : Nat
  tokenizer : CLIPTokenizer
  log_folder : String
  max_token_length : Nat
  retain_contrast : Bool
  write_schedule : Bool
  shuffle_tags : Bool
  seed : Int
  rated_dataset : Bool
  rated_dataset_dropout_target : ℚ
  image_train_items : List ImageTrainItem

namespace EveryDreamBatch

/-- Constructor `EveryDreamBatch.__init__`: copies the configuration, reads
`batch_size` from the data loader, and requests the first epoch's ordering
with `dropout_fraction = 1.0` ("First epoch always trains on all images"). -/
def init (data_loader : DataLoaderMultiAspect) (debug_level : Int)
    (conditional_dropout : ℚ) (crop_jitter : Int) (seed : Int)
    (tokenizer : CLIPTokenizer) (log_folder : String) (retain_contrast : Bool)
    (write_schedule : Bool) (shuffle_tags : Bool) (rated_dataset : Bool)
    (rated_dataset_dropout_target : ℚ) : EveryDreamBatch :=
  { data_loader := data_loader
    batch_size := data_loader.batch_size
    debug_level := debug_level
    conditional_dropout := conditional_dropout
    crop_jitter := crop_jitter
    unloaded_to_idx := 0
    tokenizer := tokenizer
    log_folder := log_folder
    max_token_length := tokenizer.model_max_length
    retain_contrast := retain_contrast
    write_schedule := write_schedule
    shuffle_tags := shuffle_tags
    seed := seed
    rated_dataset := rated_dataset
    rated_dataset_dropout_target := rated_dataset_dropout_target
    image_train_items := data_loader.get_shuffled_image_buckets 1 }

/-- Dropout fraction computed in `shuffle`:
`(max_epochs - epoch_n * rated_dataset_dropout_target) / max_epochs` in
rated-dataset mode, else `1.0`. -/
def dropoutFraction (rated_dataset : Bool) (target : ℚ)
    (epoch_n max_epochs : Int) : ℚ :=
  if rated_dataset then
    ((max_epochs : ℚ) - (epoch_n : ℚ) * target) / (max_epochs : ℚ)
  else 1

/-- Method `shuffle(epoch_n, max_epochs)`: increments the seed, computes the
dropout fraction and fetches a fresh ordering from the data loader.  (The
optional schedule write is modelled separately by `writeBatchSchedule`, which
produces the file's lines; it assigns nothing on `self`.) -/
def shuffle (self : EveryDreamBatch) (epoch_n max_epochs : Int) :
    EveryDreamBatch :=
  let self := { self with seed := self.seed + 1 }
  let dropout_fraction :=
    dropoutFraction self.rated_dataset self.rated_dataset_dropout_target
      epoch_n max_epochs
  { self with
    image_train_items :=
      self.data_loader.get_shuffled_image_buckets dropout_fraction }

/-- Method `__len__`. -/
def len (self : EveryDreamBatch) : Nat :=
  self.image_train_items.length

/-- Python's `{n:05}` for a nonnegative integer: the decimal digits,
zero-filled on the left to a minimum width `w`. -/
def zeroPad (w : Nat) (s : String) : String :=
  if s.length < w then String.replicate (w - s.length) '0' ++ s
  else s

/-- The step field of a schedule line: `{int(i / self.batch_size):05}`. -/
def stepStr (batch_size i : Nat) : String :=
  zeroPad 5 (Nat.repr (i / batch_size))

/-- One line of the batch-schedule file:
`step:{...:05}, wh:{target_wh}, r:{runt_size}, path:{pathname}\n`. -/
def scheduleLine (batch_size : Nat) (i : Nat) (item : ImageTrainItem) :
    String :=
  "step:" ++ stepStr batch_size i ++ ", wh:" ++ item.target_wh ++ ", r:" ++
    Int.repr item.runt_size ++ ", path:" ++ item.pathname ++ "\n"

/-- Method `__write_batch_schedule(epoch_n)`: iterates over the current
ordering and writes one line per item; each `f.write` sits in its own
`try/except`, so a failing entry is skipped (and logged) while the loop and
the caller continue.  Per-entry write failure is modelled by the predicate
`fails`; the result is the list of lines actually written. -/
def writeBatchSchedule (self : EveryDreamBatch) (fails : Nat → Bool) :
    List String :=
  self.image_train_items.enum.filterMap fun p =>
    if fails p.1 then none else some (scheduleLine self.batch_size p.1 p.2)

/-- The error messages logged by `__write_batch_schedule` for the entries
whose write failed. -/
def writeBatchScheduleErrors (self : EveryDreamBatch) (fails : Nat → Bool) :
    List String :=
  self.image_train_items.enum.filterMap fun p =>
    if fails p.1 then
      some (" * Error writing to batch schedule for file path: " ++
        p.2.pathname)
    else none

/-- Method `__get_image_for_trainer(image_train_item, debug_level)`: hydrates
with `crop=False`, `save = debug_level > 2`, `crop_jitter=self.crop_jitter`
and repackages image, caption and runt_size. -/
def getImageForTrainer (self : EveryDreamBatch) (image_train_item :
    ImageTrainItem) (debug_level : Int) : HydratedItem :=
  let save : Bool := debug_level > 2
  let image_train_tmp := image_train_item.hydrate false save self.crop_jitter
  { image := image_train_tmp.image
    caption := image_train_tmp.caption
    runt_size := image_train_tmp.runt_size }

/-- Per-value effect of `transforms.ToTensor()` on an 8-bit image: scale each
pixel to `[0, 1]`. -/
def toTensor (img : List Nat) : List ℚ :=
  img.map fun (p : Nat) => (p : ℚ) / 255

/-- Per-value effect of `transforms.Normalize([mean], [std])`. -/
def normalizeT (mean std : ℚ) (t : List ℚ) : List ℚ :=
  t.map fun x => (x - mean) / std

/-- The sample record assembled by `__getitem__`. -/
structure Sample where
  image : List ℚ
  caption : String
  tokens : List Int
  runt_size : Int

/-- Body of `__getitem__` after the ordering lookup, for the item
`self.image_train_items[i]`; `r` is the value drawn by `random.random()`
(uniform on `[0, 1)`). -/
def getitemItem (self : EveryDreamBatch) (item : ImageTrainItem) (r : ℚ) :
    Sample :=
  let train_item := self.getImageForTrainer item self.debug_level
  let std_dev : ℚ := if self.retain_contrast then 1 else 1/2
  let mean : ℚ := if self.retain_contrast then 0 else 1/2
  let caption :=
    if self.shuffle_tags then train_item.caption.get_shuffled_caption self.seed
    else train_item.caption.get_caption
  let image := normalizeT mean std_dev (toTensor train_item.image)
  let tokens :=
    if r > self.conditional_dropout then self.tokenizer.tokenize caption
    else self.tokenizer.tokenize " "
  { image := image
    caption := caption
    tokens := tokens
    runt_size := train_item.runt_size }

/-- Method `__getitem__(i)` with the post-state made explicit: the ordering
lookup `self.image_train_items[i]` raises `IndexError` out of range (`none`),
and the method assigns nothing on `self`, so the state it leaves behind is
the input state. -/
def getitemFull (self : EveryDreamBatch) (i : Nat) (r : ℚ) :
    Option Sample × EveryDreamBatch :=
  (match self.image_train_items[i]? with
   | some item => some (self.getitemItem item r)
   | none => none,
   self)

/-- A sequence of `__getitem__` accesses (index and random draw), threading
the state. -/
def getitemSeq (self : EveryDreamBatch) (accesses : List (Nat × ℚ)) :
    EveryDreamBatch :=
  accesses.foldl (fun st a => (st.getitemFull a.1 a.2).2) self

/-- Value whose `:.0f` rendering is logged as the "Trainer Set" estimate in
`__init__`: `num_images / batch_size`. -/
def trainerSetEstimate (self : EveryDreamBatch) : ℚ :=
  (self.image_train_items.length : ℚ) / (self.batch_size : ℚ)

end EveryDreamBatch

/-! Concrete instances of the abstract collaborators, used to instantiate the
theorems below at closed inputs. -/

/-- Concrete caption object. -/
def testCaption : CaptionObject :=
  { get_caption := "a photo of a cat"
    get_shuffled_caption := fun s => "cat photo " ++ Int.repr s }

/-- Concrete hydration result: three valid 8-bit pixels. -/
def testHydrated : HydratedItem :=
  { image := [0, 128, 255]
    caption := testCaption
    runt_size := 0 }

/-- Concrete bucketed item. -/
def testItem : ImageTrainItem :=
  { target_wh := "[512, 512]"
    runt_size := 0
    pathname := "img0.jpg"
    hydrate := fun _ _ _ => testHydrated }

/-- Concrete tokenizer: each character of the (conceptually padded) text maps
to its code point. -/
def testTokenizer : CLIPTokenizer :=
  { model_max_length := 77
    tokenize := fun s => s.toList.map fun c => (c.toNat : Int) }

/-- Concrete data loader with batch size 4 and a one-item pool. -/
def testLoader : DataLoaderMultiAspect :=
  { batch_size := 4
    get_shuffled_image_buckets := fun _ => [testItem] }

/-- Concrete `EveryDreamBatch` state (rated-dataset mode on, default-like
configuration). -/
def testState : EveryDreamBatch :=
  EveryDreamBatch.init testLoader 0 (1/50) 20 555 testTokenizer "logs" false
    false false true (1/2)

namespace EveryDreamBatch

/-- C1: `shuffle(epoch_n, max_epochs)` passes the bucketing collaborator the
dropout fraction `(max_epochs - epoch_n * rated_dataset_dropout_target) /
max_epochs` when `rated_dataset` is true (and that fraction is exactly `1.0`
at `epoch_n = 0`), and passes `1.0` when `rated_dataset` is false, regardless
of the target. -/
theorem shuffle_passes_dropout_fraction (self : EveryDreamBatch)
    (epoch_n max_epochs : Int) (hm : max_epochs ≠ 0) :
    ((self.shuffle epoch_n max_epochs).image_train_items =
      self.data_loader.get_shuffled_image_buckets
        (if self.rated_dataset then
          ((max_epochs : ℚ) - (epoch_n : ℚ) * self.rated_dataset_dropout_target)
            / (max_epochs : ℚ)
         else 1)) ∧
    (dropoutFraction true self.rated_dataset_dropout_target 0 max_epochs
      = 1) ∧
    (dropoutFraction false self.rated_dataset_dropout_target epoch_n
      max_epochs = 1) := by
  have hm' : (max_epochs : ℚ) ≠ 0 := Int.cast_ne_zero.mpr hm
  refine ⟨rfl, ?_, rfl⟩
  simp [dropoutFraction, div_self hm']

/-- Witness for `shuffle_passes_dropout_fraction` at the concrete state
`testState` with `epoch_n = 0`, `max_epochs = 10`. -/
theorem shuffle_passes_dropout_fraction_witness :
    (10 : Int) ≠ 0 ∧
    (((testState.shuffle 0 10).image_train_items =
      testState.data_loader.get_shuffled_image_buckets
        (if testState.rated_dataset then
          ((10 : ℚ) - ((0 : Int) : ℚ) * testState.rated_dataset_dropout_target)
            / (10 : ℚ)
         else 1)) ∧
    (dropoutFraction true testState.rated_dataset_dropout_target 0 10 = 1) ∧
    (dropoutFraction false testState.rated_dataset_dropout_target 0 10 = 1)) :=
  ⟨by decide, shuffle_passes_dropout_fraction testState 0 10 (by decide)⟩

/-- C3: every `shuffle` call increments the seed by exactly 1; after `k`
shuffle calls on an instance constructed with initial seed `s` the seed is
`s + k`; `__getitem__` (the only other state-threading operation) leaves the
seed untouched. -/
theorem seed_counter (self : EveryDreamBatch) (epoch_n max_epochs : Int)
    (i : Nat) (r : ℚ) (pairs : List (Int × Int))
    (dl : DataLoaderMultiAspect) (d : Int) (cd : ℚ) (cj s : Int)
    (tok : CLIPTokenizer) (lf : String) (rc ws stg rd : Bool) (t : ℚ) :
    ((self.shuffle epoch_n max_epochs).seed = self.seed + 1) ∧
    ((init dl d cd cj s tok lf rc ws stg rd t).seed = s) ∧
    ((pairs.foldl (fun st p => st.shuffle p.1 p.2) self).seed =
      self.seed + pairs.length) ∧
    ((self.getitemFull i r).2.seed = self.seed) := by
  refine ⟨rfl, rfl, ?_, rfl⟩
  induction pairs generalizing self with
  | nil => simp
  | cons p ps ih =>
      have h1 : (self.shuffle p.1 p.2).seed = self.seed + 1 := rfl
      calc ((p :: ps).foldl (fun st q => st.shuffle q.1 q.2) self).seed
          = (self.shuffle p.1 p.2).seed + ps.length := ih (self.shuffle p.1 p.2)
        _ = self.seed + (p :: ps).length := by
              rw [h1]; push_cast [List.length_cons]; ring

/-- C5: at construction the ordering is requested with dropout fraction
exactly `1.0`, and `__len__` is the length of the most recently returned
ordering: after construction, the count for fraction `1.0`; after a
`shuffle`, the count for the newly computed fraction. -/
theorem len_tracks_loader (dl : DataLoaderMultiAspect) (d : Int) (cd : ℚ)
    (cj s : Int) (tok : CLIPTokenizer) (lf : String) (rc ws stg rd : Bool)
    (t : ℚ) (self : EveryDreamBatch) (epoch_n max_epochs : Int) :
    ((init dl d cd cj s tok lf rc ws stg rd t).image_train_items =
      dl.get_shuffled_image_buckets 1) ∧
    ((init dl d cd cj s tok lf rc ws stg rd t).len =
      (dl.get_shuffled_image_buckets 1).length) ∧
    ((self.shuffle epoch_n max_epochs).len =
      (self.data_loader.get_shuffled_image_buckets
        (dropoutFraction self.rated_dataset self.rated_dataset_dropout_target
          epoch_n max_epochs)).length) :=
  ⟨rfl, rfl, rfl⟩

/-- C9: `__getitem__` leaves the provider's state unchanged (it assigns no
attribute of `self`), so any sequence of accesses preserves the state and in
particular `__len__` is constant between epoch boundaries. -/
theorem getitem_frame (self : EveryDreamBatch) (i : Nat) (r : ℚ)
    (accesses : List (Nat × ℚ)) :
    ((self.getitemFull i r).2 = self) ∧
    (self.getitemSeq accesses = self) ∧
    ((self.getitemSeq accesses).len = self.len) := by
  have h : ∀ (st : EveryDreamBatch) (acc : List (Nat × ℚ)),
      st.getitemSeq acc = st := by
    intro st acc
    induction acc generalizing st with
    | nil => rfl
    | cons a l ih => exact ih st
  exact ⟨rfl, h self accesses, by rw [h self accesses]⟩

/-- C10: `batch_size` is read once at construction from the data loader's
`batch_size` attribute, is preserved by `shuffle` and `__getitem__`, and is
the value used both for the logged set-size estimate and for the
`step = floor(index / batch_size)` field of the schedule file. -/
theorem batch_size_provenance (dl : DataLoaderMultiAspect) (d : Int) (cd : ℚ)
    (cj s : Int) (tok : CLIPTokenizer) (lf : String) (rc ws stg rd : Bool)
    (t : ℚ) (self : EveryDreamBatch) (epoch_n max_epochs : Int) (i : Nat)
    (r : ℚ) (fails : Nat → Bool) :
    ((init dl d cd cj s tok lf rc ws stg rd t).batch_size = dl.batch_size) ∧
    ((self.shuffle epoch_n max_epochs).batch_size = self.batch_size) ∧
    ((self.getitemFull i r).2.batch_size = self.batch_size) ∧
    (self.trainerSetEstimate = (self.len : ℚ) / (self.batch_size : ℚ)) ∧
    (self.writeBatchSchedule fails =
      self.image_train_items.enum.filterMap fun p =>
        if fails p.1 then none
        else some (scheduleLine self.batch_size p.1 p.2)) :=
  ⟨rfl, rfl, rfl, rfl, rfl⟩

end EveryDreamBatch

/-- Variant of `testState` with `conditional_dropout = 0`. -/
def testStateCD0 : EveryDreamBatch :=
  { testState with conditional_dropout := 0 }

/-- Variant of `testState` with tag shuffling enabled. -/
def testStateST : EveryDreamBatch :=
  { testState with shuffle_tags := true }

namespace EveryDreamBatch

/-- Helper: the tokens of a sample are the tokenization of its caption when
the draw exceeds `conditional_dropout`, else of the blank-space string.  This
is the branch `if random.random() > self.conditional_dropout` verbatim. -/
theorem getitemItem_tokens (self : EveryDreamBatch) (item : ImageTrainItem)
    (r : ℚ) :
    (self.getitemItem item r).tokens =
      if self.conditional_dropout < r then
        self.tokenizer.tokenize ((self.getitemItem item r).caption)
      else self.tokenizer.tokenize " " :=
  rfl

/-- C2 (amended): the caption is kept exactly when the drawn value is
strictly greater than `conditional_dropout`, else the tokens are the
tokenization of a single blank space; with `conditional_dropout = 1.0` every
sample is blanked (draws lie in `[0, 1)`), and with
`conditional_dropout = 0.0` no sample is blanked for every draw that is
strictly positive (the draw `0.0`, which `random.random()` can return,
blanks the sample). -/
theorem conditional_dropout_branches (self : EveryDreamBatch)
    (item : ImageTrainItem) (r : ℚ) (h0 : 0 ≤ r) (h1 : r < 1) :
    ((self.getitemItem item r).tokens =
      if self.conditional_dropout < r then
        self.tokenizer.tokenize ((self.getitemItem item r).caption)
      else self.tokenizer.tokenize " ") ∧
    (self.conditional_dropout = 1 →
      (self.getitemItem item r).tokens = self.tokenizer.tokenize " ") ∧
    (self.conditional_dropout = 0 → 0 < r →
      (self.getitemItem item r).tokens =
        self.tokenizer.tokenize ((self.getitemItem item r).caption)) := by
  refine ⟨getitemItem_tokens self item r, fun hc => ?_, fun hc hr => ?_⟩
  · rw [getitemItem_tokens, if_neg]
    rw [hc]
    exact lt_asymm h1
  · rw [getitemItem_tokens, if_pos]
    rw [hc]
    exact hr

/-- Witness for `conditional_dropout_branches` at `testState` with draw
`r = 1/2`. -/
theorem conditional_dropout_branches_witness :
    (0 : ℚ) ≤ 1/2 ∧ (1/2 : ℚ) < 1 ∧
    (((testState.getitemItem testItem (1/2)).tokens =
      if testState.conditional_dropout < 1/2 then
        testState.tokenizer.tokenize
          ((testState.getitemItem testItem (1/2)).caption)
      else testState.tokenizer.tokenize " ") ∧
    (testState.conditional_dropout = 1 →
      (testState.getitemItem testItem (1/2)).tokens =
        testState.tokenizer.tokenize " ") ∧
    (testState.conditional_dropout = 0 → 0 < (1/2 : ℚ) →
      (testState.getitemItem testItem (1/2)).tokens =
        testState.tokenizer.tokenize
          ((testState.getitemItem testItem (1/2)).caption))) :=
  ⟨by norm_num, by norm_num,
    conditional_dropout_branches testState testItem (1/2) (by norm_num)
      (by norm_num)⟩

/-- Counterexample to C2 as stated: with `conditional_dropout = 0.0` and the
draw `0.0` — a value `random.random()` can return, since its range is
`[0, 1)` — the branch `0 > 0` is false and the sample IS blanked: its tokens
are the tokenization of the blank-space string and differ from the
tokenization of its caption. -/
theorem conditional_dropout_zero_blanks_at_zero_draw :
    testStateCD0.conditional_dropout = 0 ∧ (0 : ℚ) ≤ 0 ∧ (0 : ℚ) < 1 ∧
    (testStateCD0.getitemItem testItem 0).tokens =
      testStateCD0.tokenizer.tokenize " " ∧
    (testStateCD0.getitemItem testItem 0).tokens ≠
      testStateCD0.tokenizer.tokenize
        ((testStateCD0.getitemItem testItem 0).caption) := by
  refine ⟨rfl, le_refl 0, by norm_num, ?_, ?_⟩
  · rw [getitemItem_tokens, if_neg]
    exact lt_irrefl 0
  · rw [getitemItem_tokens, if_neg]
    · decide
    · exact lt_irrefl 0

/-- C4: the image is produced by a single `(mean, std)` affine normalization
of the `[0, 1]`-scaled pixels, with parameters `(0, 1)` when
`retain_contrast` is true — the identity, so the values equal the raw scaled
pixels — and `(1/2, 1/2)` when false, mapping every valid 8-bit pixel into
`[-1, 1]`. -/
theorem image_normalization (self : EveryDreamBatch) (item : ImageTrainItem)
    (r : ℚ)
    (h8 : ∀ p ∈ (self.getImageForTrainer item self.debug_level).image,
      p ≤ 255) :
    ((self.getitemItem item r).image =
      normalizeT (if self.retain_contrast then 0 else 1/2)
        (if self.retain_contrast then 1 else 1/2)
        (toTensor (self.getImageForTrainer item self.debug_level).image)) ∧
    (self.retain_contrast = true →
      (self.getitemItem item r).image =
        toTensor (self.getImageForTrainer item self.debug_level).image) ∧
    (self.retain_contrast = false →
      ∀ x ∈ (self.getitemItem item r).image, -1 ≤ x ∧ x ≤ 1) := by
  refine ⟨rfl, fun hrc => ?_, fun hrc x hx => ?_⟩
  · show normalizeT (if self.retain_contrast then 0 else 1/2)
        (if self.retain_contrast then 1 else 1/2)
        (toTensor (self.getImageForTrainer item self.debug_level).image) = _
    simp [hrc, normalizeT]
  · have hx' : x ∈ normalizeT (1/2) (1/2)
        (toTensor (self.getImageForTrainer item self.debug_level).image) := by
      revert hx
      show x ∈ normalizeT (if self.retain_contrast then 0 else 1/2)
          (if self.retain_contrast then 1 else 1/2)
          (toTensor (self.getImageForTrainer item self.debug_level).image) → _
      rw [hrc]
      simp
    simp only [normalizeT, toTensor] at hx'
    obtain ⟨a, ha, rfl⟩ := List.mem_map.mp hx'
    obtain ⟨p, hp, rfl⟩ := List.mem_map.mp ha
    have hple : ((p : ℚ)) ≤ 255 := by exact_mod_cast h8 p hp
    have hp0 : (0 : ℚ) ≤ (p : ℚ) := Nat.cast_nonneg p
    have ha1 : (p : ℚ) / 255 ≤ 1 := by
      rw [div_le_one (by norm_num : (0:ℚ) < 255)]
      exact hple
    have ha0 : (0 : ℚ) ≤ (p : ℚ) / 255 := by positivity
    have heq : ((p : ℚ) / 255 - 1/2) / (1/2) = 2 * ((p : ℚ) / 255) - 1 := by
      ring
    rw [heq]
    constructor <;> linarith

/-- Witness for `image_normalization` at `testState` (contrast retention
off) and `testItem`, whose hydrated image is `[0, 128, 255]`. -/
theorem image_normalization_witness :
    (∀ p ∈ (testState.getImageForTrainer testItem
      testState.debug_level).image, p ≤ 255) ∧
    (((testState.getitemItem testItem (1/2)).image =
      normalizeT (if testState.retain_contrast then 0 else 1/2)
        (if testState.retain_contrast then 1 else 1/2)
        (toTensor (testState.getImageForTrainer testItem
          testState.debug_level).image)) ∧
    (testState.retain_contrast = true →
      (testState.getitemItem testItem (1/2)).image =
        toTensor (testState.getImageForTrainer testItem
          testState.debug_level).image) ∧
    (testState.retain_contrast = false →
      ∀ x ∈ (testState.getitemItem testItem (1/2)).image,
        -1 ≤ x ∧ x ≤ 1)) :=
  ⟨by decide, image_normalization testState testItem (1/2) (by decide)⟩

/-- C6: the caption string is the shuffled-order view obtained with the
current epoch seed when `shuffle_tags` is true, and the stable view when it
is false. -/
theorem caption_view_selection (self : EveryDreamBatch)
    (item : ImageTrainItem) (r : ℚ) :
    (self.shuffle_tags = true →
      (self.getitemItem item r).caption =
        (self.getImageForTrainer item
          self.debug_level).caption.get_shuffled_caption self.seed) ∧
    (self.shuffle_tags = false →
      (self.getitemItem item r).caption =
        (self.getImageForTrainer item
          self.debug_level).caption.get_caption) := by
  constructor <;> intro h <;> simp [getitemItem, h]

/-- Witness for `caption_view_selection` at the concrete states `testStateST`
(tag shuffling on) and `testState` (off). -/
theorem caption_view_selection_witness :
    ((testStateST.shuffle_tags = true →
      (testStateST.getitemItem testItem 0).caption =
        (testStateST.getImageForTrainer testItem
          testStateST.debug_level).caption.get_shuffled_caption
            testStateST.seed) ∧
    (testStateST.shuffle_tags = false →
      (testStateST.getitemItem testItem 0).caption =
        (testStateST.getImageForTrainer testItem
          testStateST.debug_level).caption.get_caption)) ∧
    ((testState.shuffle_tags = false →
      (testState.getitemItem testItem 0).caption =
        (testState.getImageForTrainer testItem
          testState.debug_level).caption.get_caption)) :=
  ⟨caption_view_selection testStateST testItem 0,
    (caption_view_selection testState testItem 0).2⟩

/-- C7: every hydration request issued by `__getitem__` goes through
`__get_image_for_trainer`, which calls `hydrate` with `crop = False`,
`save = (debug_level > 2)` and `crop_jitter = self.crop_jitter`, and the
`runt_size` of the hydration result is carried unchanged into the returned
sample. -/
theorem hydration_parameters (self : EveryDreamBatch)
    (item : ImageTrainItem) (r : ℚ) :
    (self.getImageForTrainer item self.debug_level =
      { image := (item.hydrate false (decide (self.debug_level > 2))
          self.crop_jitter).image
        caption := (item.hydrate false (decide (self.debug_level > 2))
          self.crop_jitter).caption
        runt_size := (item.hydrate false (decide (self.debug_level > 2))
          self.crop_jitter).runt_size }) ∧
    ((self.getitemItem item r).runt_size =
      (item.hydrate false (decide (self.debug_level > 2))
        self.crop_jitter).runt_size) :=
  ⟨rfl, rfl⟩

end EveryDreamBatch

/-- Second concrete bucketed item, with a distinct path. -/
def testItem2 : ImageTrainItem :=
  { target_wh := "[640, 384]"
    runt_size := 2
    pathname := "img1.jpg"
    hydrate := fun _ _ _ => testHydrated }

/-- Concrete data loader with a two-item pool. -/
def testLoader2 : DataLoaderMultiAspect :=
  { batch_size := 4
    get_shuffled_image_buckets := fun _ => [testItem, testItem2] }

/-- Concrete state with schedule writing enabled over the two-item pool. -/
def testStateWS : EveryDreamBatch :=
  EveryDreamBatch.init testLoader2 0 (1/50) 20 555 testTokenizer "logs" false
    true false false (1/2)

/-- Concrete data loader whose pool has 100001 items with batch size 1, so
the last written schedule entry has step 100000. -/
def cxLoader : DataLoaderMultiAspect :=
  { batch_size := 1
    get_shuffled_image_buckets := fun _ => List.replicate 100001 testItem }

/-- Concrete state over `cxLoader`. -/
def cxState : EveryDreamBatch :=
  EveryDreamBatch.init cxLoader 0 (1/50) 20 555 testTokenizer "logs" false
    true false false (1/2)

namespace EveryDreamBatch

/-- Helper: length of the zero-padded rendering. -/
theorem zeroPad_length (w : Nat) (s : String) :
    (zeroPad w s).length = max w s.length := by
  unfold zeroPad
  by_cases h : s.length < w
  · rw [if_pos h, String.length_append, String.length_replicate]
    omega
  · rw [if_neg h]
    omega

/-- C8 (amended): per-entry write failures in the batch-schedule writer are
caught and logged — every non-failing entry is still written and every
failing entry contributes a logged error message, so the writer (and the
epoch transition around it) completes for any failure pattern; each written
entry's step field is `floor(item_index / batch_size)` rendered zero-padded
to a minimum width of 5 (so exactly 5 digits only while the step is below
100000). -/
theorem schedule_write_best_effort (self : EveryDreamBatch)
    (fails : Nat → Bool) (i j : Nat) (item jtem : ImageTrainItem)
    (hi : (i, item) ∈ self.image_train_items.enum) (hfi : fails i = false)
    (hj : (j, jtem) ∈ self.image_train_items.enum) (hfj : fails j = true) :
    (scheduleLine self.batch_size i item ∈ self.writeBatchSchedule fails) ∧
    ((" * Error writing to batch schedule for file path: " ++ jtem.pathname)
      ∈ self.writeBatchScheduleErrors fails) ∧
    (stepStr self.batch_size i =
      zeroPad 5 (Nat.repr (i / self.batch_size))) ∧
    ((stepStr self.batch_size i).length =
      max 5 (Nat.repr (i / self.batch_size)).length) := by
  refine ⟨?_, ?_, rfl, zeroPad_length 5 _⟩
  · exact List.mem_filterMap.mpr ⟨(i, item), hi, by simp [hfi]⟩
  · exact List.mem_filterMap.mpr ⟨(j, jtem), hj, by simp [hfj]⟩

/-- Witness for `schedule_write_best_effort` at `testStateWS` where entry 1
fails and entry 0 succeeds. -/
theorem schedule_write_best_effort_witness :
    ((0, testItem) ∈ testStateWS.image_train_items.enum) ∧
    ((fun n => decide (n = 1)) 0 = false) ∧
    ((1, testItem2) ∈ testStateWS.image_train_items.enum) ∧
    ((fun n => decide (n = 1)) 1 = true) ∧
    ((scheduleLine testStateWS.batch_size 0 testItem ∈
      testStateWS.writeBatchSchedule fun n => decide (n = 1)) ∧
    ((" * Error writing to batch schedule for file path: " ++
      testItem2.pathname) ∈
      testStateWS.writeBatchScheduleErrors fun n => decide (n = 1)) ∧
    (stepStr testStateWS.batch_size 0 =
      zeroPad 5 (Nat.repr (0 / testStateWS.batch_size))) ∧
    ((stepStr testStateWS.batch_size 0).length =
      max 5 (Nat.repr (0 / testStateWS.batch_size)).length)) :=
  ⟨List.Mem.head _, rfl, List.Mem.tail _ (List.Mem.head _), rfl,
    schedule_write_best_effort testStateWS (fun n => decide (n = 1)) 0 1
      testItem testItem2 (List.Mem.head _) rfl
      (List.Mem.tail _ (List.Mem.head _)) rfl⟩

/-- Counterexample to C8 as stated: in a pool of 100001 items with batch
size 1 and no write failures, the entry at index 100000 is written, and its
step field renders as the six-character string "100000" — `{...:05}`
zero-pads to a *minimum* of five digits, it does not cap at five. -/
theorem schedule_step_not_five_digits :
    (scheduleLine 1 100000 testItem ∈
      cxState.writeBatchSchedule fun _ => false) ∧
    stepStr 1 100000 = "100000" ∧
    ("100000" : String).length ≠ 5 := by
  refine ⟨?_, by decide, by decide⟩
  apply List.mem_filterMap.mpr
  refine ⟨(100000, testItem), ?_, rfl⟩
  apply List.mk_mem_enum_iff_getElem?.mpr
  show (List.replicate 100001 testItem)[100000]? = some testItem
  rw [List.getElem?_replicate, if_pos (by norm_num)]

end EveryDreamBatch
